import Mathlib

/-!
Verification development for the Macroaxis-Arbitrage-Python repository.

The repository has three Python files:
  * `verify_binance.py` — the triangular-arbitrage verifier
    `verify_triangular_opportunity`, working on `decimal.Decimal` values;
  * `main_check_macro_verify.py` — scraper with a semaphore-bounded fetch
    loop, retrying fetch, HTML extractor, and a per-candidate call into the
    verifier;
  * `async_arb_verify.py` — a near-identical scraper variant without the
    semaphore and without fetch retries.

Embedding conventions:
  * `decimal.Decimal` quantities are embedded as exact rationals (`ℚ`).
    The source sets `getcontext().prec = 28`; the 28-significant-digit
    rounding of that context is not modeled — every concrete computation
    proved below is exact well within 28 significant digits.
  * Python strings are manipulated through `List Char` helpers that mirror
    `str.strip`, `str.upper`, `str.split("->")` and `str.split()`; only the
    ASCII behaviour (all the repository's symbols are ASCII) is modeled.
  * Fallible Python code (exceptions) is embedded with `Option`/`Except`.
-/

/-! ## String helpers mirroring the Python string methods used by the source -/

/-- Python `str.strip()` (whitespace at both ends removed). -/
def trimWs (cs : List Char) : List Char :=
  ((cs.dropWhile Char.isWhitespace).reverse.dropWhile Char.isWhitespace).reverse

/-- Python `str.upper()` restricted to ASCII, which covers every currency
symbol the repository handles. -/
def upperAscii (cs : List Char) : List Char := cs.map Char.toUpper

/-- Python `str.split("->")`: split on every non-overlapping occurrence of
the two-character separator `->`, scanning left to right. -/
def splitArrow : List Char → List (List Char)
  | [] => [[]]
  | '-' :: '>' :: rest => [] :: splitArrow rest
  | c :: rest =>
    match splitArrow rest with
    | [] => [[c]]
    | g :: gs => (c :: g) :: gs

/-- Python `str.split()` with no argument: tokens separated by runs of
whitespace, with no empty tokens. -/
def wsTokensGo (acc : List Char) : List Char → List (List Char)
  | [] => if acc.isEmpty then [] else [acc.reverse]
  | c :: rest =>
    if c.isWhitespace then
      if acc.isEmpty then wsTokensGo [] rest
      else acc.reverse :: wsTokensGo [] rest
    else wsTokensGo (c :: acc) rest

/-- Python `s.split()` as a `String`-level operation. -/
def pySplitWs (s : String) : List String :=
  (wsTokensGo [] s.toList).map String.mk

/-! ## Triangular verifier (`verify_binance.py`, `verify_triangular_opportunity`)

`client.get_orderbook_ticker(symbol=...)` is the external quote provider; it
is embedded as a function from the symbol to `Except`: `.error` stands for a
raised exception (symbol not found, provider/transport error), `.ok` for a
ticker whose decimal price strings have already been converted to exact
rationals. -/

/-- Best bid/ask for one trading-pair symbol, as returned by
`client.get_orderbook_ticker` after `Decimal` conversion. -/
structure Ticker where
  bidPrice : ℚ
  askPrice : ℚ

/-- The quote provider interface. -/
abbrev Provider := String → Except String Ticker

/-- `getcontext().prec = 28` (verify_binance.py line 5): the significant
digits of the decimal context under which every verifier quantity is
computed. -/
def getcontext_prec : ℕ := 28

/-- Control-flow outcome of `verify_triangular_opportunity`, one constructor
per distinct return site of the source:
  * `malformed` — the `len(parts) != 4 or parts[0] != parts[-1]` check fired
    (prints "Invalid sequence format...", returns `(None, None)`);
  * `invalidQuote leg pair` — the leg's looked-up price was `<= 0`
    (the source prints a diagnostic and returns `(None, None)`; for leg 1
    the printed text hardcodes the pair name "ACHUSDT", the constructor
    records the pair actually looked up);
  * `exnCaught msg` — the `except Exception` handler ran (returns
    `(None, None)`);
  * `ok` — the success path, carrying `ach_amount`, `btc_amount`,
    `final_usdt` and `arbitrage_ratio` as named in the source. -/
inductive VOutcome where
  | malformed
  | invalidQuote (leg : ℕ) (pair : String)
  | exnCaught (msg : String)
  | ok (ach_amount btc_amount final_usdt arbitrage_ratio : ℚ)

/-- The parse step of the source:
`parts = [p.strip().upper() for p in sequence.split("->")]`. -/
def parseParts (sequence : String) : List String :=
  (splitArrow sequence.toList).map (fun cs => String.mk (upperAscii (trimWs cs)))

/-- `verify_triangular_opportunity` (verify_binance.py lines 12–89).

Returns the structured outcome together with the ordered list of symbols
looked up on the quote provider (the trace of `get_orderbook_ticker`
calls), so that "no later lookup is performed" is expressible. -/
def verify_triangular_opportunity (client : Provider) (sequence : String)
    (starting_amount : ℚ) : VOutcome × List String :=
  let parts := parseParts sequence
  if parts.length ≠ 4 ∨ parts.getD 0 "" ≠ parts.getD 3 "" then
    (.malformed, [])
  else
    let start := parts.getD 0 ""
    let mid := parts.getD 1 ""
    let en := parts.getD 2 ""
    let mid_start := mid ++ start
    match client mid_start with
    | .error e => (.exnCaught e, [mid_start])
    | .ok ticker1 =>
      if ticker1.askPrice ≤ 0 then (.invalidQuote 1 mid_start, [mid_start])
      else
        let ach_amount := starting_amount / ticker1.askPrice
        let mid_end := mid ++ en
        match client mid_end with
        | .error e => (.exnCaught e, [mid_start, mid_end])
        | .ok ticker2 =>
          if ticker2.bidPrice ≤ 0 then
            (.invalidQuote 2 mid_end, [mid_start, mid_end])
          else
            let btc_amount := ach_amount * ticker2.bidPrice
            let end_start := en ++ start
            match client end_start with
            | .error e => (.exnCaught e, [mid_start, mid_end, end_start])
            | .ok ticker3 =>
              if ticker3.bidPrice ≤ 0 then
                (.invalidQuote 3 end_start, [mid_start, mid_end, end_start])
              else
                let final_usdt := btc_amount * ticker3.bidPrice
                (.ok ach_amount btc_amount final_usdt (final_usdt / starting_amount),
                 [mid_start, mid_end, end_start])

/-- The value the Python function actually returns: `(final_usdt, ratio)` on
success and `(None, None)` on every other path. -/
def toReturn : VOutcome → Option ℚ × Option ℚ
  | .ok _ _ f r => (some f, some r)
  | _ => (none, none)

/-- What the caller prints about a verification
(`verify_from_binance`, async_arb_verify.py lines 31–37): "Arbitrage
opportunity confirmed!", "No arbitrage opportunity found on Binance.", or
nothing at all when the verifier returned `(None, None)`. -/
inductive Report where
  | confirmedArb
  | noOpportunity
  | silent

/-- `verify_from_binance` of async_arb_verify.py: calls the verifier with
`starting_amount=100` and classifies the returned pair. -/
def verify_from_binance (client : Provider) (sequence : String) : Report :=
  match toReturn (verify_triangular_opportunity client sequence 100).1 with
  | (some _, some r) => if 1 < r then .confirmedArb else .noOpportunity
  | _ => .silent

/-- The concrete quote provider of the spec's worked example:
`GALAUSDT.ask = 0.05`, `GALABTC.bid = 0.0000008`, `BTCUSDT.bid = 60000`
(the bid/ask values the example leaves unspecified are arbitrary positive
numbers); every other symbol raises. -/
def galaClient : Provider := fun symbol =>
  if symbol = "GALAUSDT" then .ok ⟨1/25, 1/20⟩
  else if symbol = "GALABTC" then .ok ⟨8/10000000, 1/1000000⟩
  else if symbol = "BTCUSDT" then .ok ⟨60000, 60001⟩
  else .error "symbol not found"

/-! ## The per-candidate verification call of `main_check_macro_verify.py`

`verify_from_binance` there (line 35) calls
`verify_triangular_opportunity(sequence, starting_amount=100,
PROFIT_THRESHOLD_VEIRFY=PROFIT_THRESHOLD_FOR_BINANCE)`, but the callee's
signature (verify_binance.py line 12) is
`def verify_triangular_opportunity(sequence, starting_amount=100)` with no
`**kwargs`.  Python raises `TypeError` at such a call, before the callee's
body (and hence its `try` block) can run.  The keyword-binding rule is
embedded explicitly so the failure is provable. -/

/-- Parameter names of `verify_triangular_opportunity`
(verify_binance.py line 12). -/
def vtoParams : List String := ["sequence", "starting_amount"]

/-- Keyword arguments of the call at main_check_macro_verify.py line 35. -/
def mcKwargs : List String := ["starting_amount", "PROFIT_THRESHOLD_VEIRFY"]

/-- Python keyword binding for a function without `**kwargs`: the first
keyword that is not a parameter name makes the call raise `TypeError`
before the callee body runs. -/
def unexpectedKeyword (params kwargs : List String) : Option String :=
  kwargs.find? (fun k => !(params.contains k))

/-- The `TypeError` text for the call at main_check_macro_verify.py line 35. -/
def tyErrMsg : String :=
  "TypeError: unexpected keyword argument PROFIT_THRESHOLD_VEIRFY"

/-- `verify_from_binance` of main_check_macro_verify.py (lines 34–35):
either the call binds and the result is discarded, or the binding fails
and the `TypeError` propagates to the caller (`Except.error`). -/
def verify_from_binance_mc (client : Provider) (sequence : String) :
    Except String Unit :=
  match unexpectedKeyword vtoParams mcKwargs with
  | some _ => .error tyErrMsg
  | none =>
    let _ := verify_triangular_opportunity client sequence 100
    .ok ()

/-- The candidate loop of `scrape_and_find` (main_check_macro_verify.py
lines 143–146), applied to the (sequence, profit) pairs extracted from one
page: `verify_from_binance` is called per candidate, and an exception it
raises propagates out of `scrape_and_find` (there is no handler). -/
def scrape_and_find_mc (client : Provider)
    (opportunities : List (String × ℚ)) : Except String Unit :=
  opportunities.foldlM (fun _ op => verify_from_binance_mc client op.1) ()

/-- One poll cycle of `main` (main_check_macro_verify.py lines 158–160):
`asyncio.gather` over all pages' `scrape_and_find` tasks, with the default
`return_exceptions=False`, so the first exception raised by any task
propagates out of `gather` into the bare `while True` loop and terminates
the process.  Each page is given by its extracted candidate list. -/
def run_cycle_mc (client : Provider)
    (pages : List (List (String × ℚ))) : Except String Unit :=
  pages.foldlM (fun _ ops => scrape_and_find_mc client ops) ()

/-! ## Fetch with retries (`main_check_macro_verify.py`, `fetch`, lines 113–128)

The network is embedded as an environment mapping the attempt number to its
outcome.  The function records a trace of events — which attempts were made
and where the `await asyncio.sleep(0.5)` backoff ran — so the retry/backoff
shape is provable. -/

/-- Outcome of one `session.get` attempt: a 200 response with a body, a
non-200 status, or a raised exception (timeout / transport error). -/
inductive AttemptOutcome where
  | success (body : String)
  | badStatus (code : ℕ)
  | failure (msg : String)

/-- Events recorded by the embedded `fetch`. -/
inductive FetchEvent where
  | attempt (n : ℕ)
  | sleepHalfSec
deriving DecidableEq

/-- `MAX_RETRIES = 3` (main_check_macro_verify.py line 30). -/
def MAX_RETRIES : ℕ := 3

/-- The `for attempt in range(1, MAX_RETRIES + 1)` loop body of `fetch`:
a 200 response returns its text at once; a non-200 status or an exception
sleeps 0.5 s and moves on to the next attempt; an exhausted loop returns
`None`. -/
def fetchLoop (env : ℕ → AttemptOutcome) :
    List ℕ → Option String × List FetchEvent
  | [] => (none, [])
  | a :: rest =>
    match env a with
    | .success body => (some body, [.attempt a])
    | .badStatus _ =>
      let r := fetchLoop env rest
      (r.1, .attempt a :: .sleepHalfSec :: r.2)
    | .failure _ =>
      let r := fetchLoop env rest
      (r.1, .attempt a :: .sleepHalfSec :: r.2)

/-- `fetch` of main_check_macro_verify.py, generalized over the retry
count: attempts are numbered `1, ..., maxRetries` as in
`range(1, MAX_RETRIES + 1)`. -/
def fetch (env : ℕ → AttemptOutcome) (maxRetries : ℕ) :
    Option String × List FetchEvent :=
  fetchLoop env (List.range' 1 maxRetries)

/-- Fetch every endpoint of the cycle (each with its own attempt
environment) and record each endpoint's terminal outcome. -/
def fetchAll (env : String → ℕ → AttemptOutcome) (urls : List String) :
    List (String × Option String) :=
  urls.map (fun u => (u, (fetch (env u) MAX_RETRIES).1))

/-! ## Bounded-concurrency scheduler

`main` of main_check_macro_verify.py creates
`sem = asyncio.Semaphore(CONCURRENCY_LIMIT)` and every task wraps its fetch
in `async with sem:`, so a fetch is in flight exactly while the semaphore is
held.  `main` of async_arb_verify.py spawns the same tasks with no
semaphore.  Both disciplines are embedded as a small-step system over the
per-endpoint task states; `limit = some n` is the semaphore-gated variant,
`limit = none` the ungated one. -/

/-- `CONCURRENCY_LIMIT = 50` (main_check_macro_verify.py line 29). -/
def CONCURRENCY_LIMIT : ℕ := 50

/-- Lifecycle of one endpoint's task: waiting to fetch, fetch in flight,
finished. -/
inductive TaskState where
  | waiting
  | fetching
  | done
deriving DecidableEq

/-- Scheduler state: one task state per endpoint. -/
abbrev SchedState := List TaskState

/-- Number of fetches currently in flight. -/
def countFetching : SchedState → ℕ
  | [] => 0
  | .fetching :: rest => countFetching rest + 1
  | _ :: rest => countFetching rest

/-- A scheduler transition: task `i` begins its fetch (acquiring the
semaphore when one is configured), or task `i`'s fetch completes. -/
inductive Move where
  | start (i : ℕ)
  | finish (i : ℕ)

/-- One transition.  `start i` requires task `i` to be waiting and — in the
semaphore-gated variant — strictly fewer than `n` fetches in flight;
`finish i` requires task `i` to be fetching.  `none` means the move is not
enabled. -/
def applyMove (limit : Option ℕ) (s : SchedState) : Move → Option SchedState
  | .start i =>
    match s.get? i with
    | some .waiting =>
      match limit with
      | some n =>
        if countFetching s < n then some (s.set i .fetching) else none
      | none => some (s.set i .fetching)
    | _ => none
  | .finish i =>
    match s.get? i with
    | some .fetching => some (s.set i .done)
    | _ => none

/-- Run a sequence of transitions. -/
def applyMoves (limit : Option ℕ) : SchedState → List Move → Option SchedState
  | s, [] => some s
  | s, m :: ms =>
    match applyMove limit s m with
    | some s2 => applyMoves limit s2 ms
    | none => none

/-- Initial state of a cycle over `k` endpoints. -/
def initSched (k : ℕ) : SchedState := List.replicate k .waiting

/-! ## CPython `float(...)` — IEEE-754 binary64

The extractor parses the profit figure with
`profit_value = float(profit_text.split()[0])`
(main_check_macro_verify.py line 104), so the parsed value is the decimal
literal's value correctly rounded to the nearest binary64 double
(round-to-nearest, ties-to-even), which CPython guarantees.  The rounding is
embedded exactly on `ℚ`; overflow to infinity and the `inf`/`nan`/underscore
literal forms are not modeled (no profit figure comes near them). -/

/-- Powers of two with integer exponent, as a rational. -/
def pow2z (e : ℤ) : ℚ :=
  if 0 ≤ e then ((2 : ℚ) ^ e.toNat) else 1 / (2 : ℚ) ^ (-e).toNat

/-- Round a rational to the nearest integer, ties to even. -/
def roundTiesEven (q : ℚ) : ℤ :=
  let f := ⌊q⌋
  let r := q - f
  if r < 1/2 then f
  else if 1/2 < r then f + 1
  else if f % 2 = 0 then f else f + 1

/-- Base-2 logarithm with explicit fuel (structural, so concrete instances
reduce in the kernel): `log2F fuel n` is the floor base-2 logarithm of `n`
whenever `n ≤ 2 ^ fuel`. -/
def log2F : ℕ → ℕ → ℕ
  | 0, _ => 0
  | f + 1, n => if 2 ≤ n then log2F f (n / 2) + 1 else 0

/-- Greatest `e : ℤ` with `2 ^ e ≤ q`, for `q > 0`. -/
def expOfPos (q : ℚ) : ℤ :=
  if 1 ≤ q then (log2F ⌊q⌋.toNat ⌊q⌋.toNat : ℤ)
  else
    let b := ⌊q⁻¹⌋.toNat
    let l := log2F b b
    if pow2z (-(l : ℤ)) ≤ q then -(l : ℤ) else -(l : ℤ) - 1

/-- Round a positive rational to binary64: 53-bit significand for the
normal range, fixed-point at the smallest subnormal below it. -/
def roundFloat64Pos (q : ℚ) : ℚ :=
  let e := expOfPos q
  if e < -1022 then
    (roundTiesEven (q * pow2z 1074) : ℚ) * pow2z (-1074)
  else
    (roundTiesEven (q * pow2z (52 - e)) : ℚ) * pow2z (e - 52)

/-- Correctly-rounded conversion of an exact rational to binary64. -/
def roundFloat64 (q : ℚ) : ℚ :=
  if q = 0 then 0
  else if q < 0 then -(roundFloat64Pos (-q))
  else roundFloat64Pos q

/-! ### Parsing a Python float literal to its exact decimal value -/

/-- Numeric value of a digit run (most significant first). -/
def digitsVal (cs : List Char) : ℕ :=
  cs.foldl (fun a c => a * 10 + (c.toNat - 48)) 0

/-- Powers of ten with integer exponent, as a rational. -/
def pow10z (e : ℤ) : ℚ :=
  if 0 ≤ e then ((10 : ℚ) ^ e.toNat) else 1 / (10 : ℚ) ^ (-e).toNat

/-- Mantissa of a float literal (`digits [. digits]` or `. digits`):
its exact value and the unconsumed input. -/
def parseMantissa (cs : List Char) : Option (ℚ × List Char) :=
  let ip := cs.takeWhile Char.isDigit
  let cs1 := cs.dropWhile Char.isDigit
  match cs1 with
  | '.' :: rest =>
    let fp := rest.takeWhile Char.isDigit
    let cs2 := rest.dropWhile Char.isDigit
    if ip.isEmpty && fp.isEmpty then none
    else some ((digitsVal ip : ℚ) + (digitsVal fp : ℚ) / (10 : ℚ) ^ fp.length, cs2)
  | _ => if ip.isEmpty then none else some ((digitsVal ip : ℚ), cs1)

/-- Optional exponent part (`e` or `E`, an optional sign, digits);
`none` means a malformed exponent. -/
def parseExpPart (cs : List Char) : Option (ℤ × List Char) :=
  match cs with
  | [] => some (0, [])
  | c :: rest =>
    if c = 'e' ∨ c = 'E' then
      let (sg, r1) : ℤ × List Char :=
        match rest with
        | '-' :: r => (-1, r)
        | '+' :: r => (1, r)
        | _ => (1, rest)
      let ed := r1.takeWhile Char.isDigit
      let r2 := r1.dropWhile Char.isDigit
      if ed.isEmpty then none else some (sg * (digitsVal ed : ℤ), r2)
    else some (0, c :: rest)

/-- Exact decimal value of a Python float literal (sign, mantissa, optional
exponent, surrounding whitespace allowed); `none` when `float(s)` raises
`ValueError`. -/
def pyDecimalValue (s : String) : Option ℚ :=
  let cs := trimWs s.toList
  let p : ℚ × List Char :=
    match cs with
    | '-' :: r => (-1, r)
    | '+' :: r => (1, r)
    | _ => (1, cs)
  match parseMantissa p.2 with
  | none => none
  | some (m, cs1) =>
    match parseExpPart cs1 with
    | none => none
    | some (e, cs2) =>
      if cs2.isEmpty then some (p.1 * m * pow10z e) else none

/-- CPython `float(s)`: the literal's exact decimal value rounded to the
nearest binary64. -/
def pyFloatOfString (s : String) : Option ℚ :=
  (pyDecimalValue s).map roundFloat64

/-! ## Parsed-markup model and the extractor
(`main_check_macro_verify.py`, `extract_opportunities`, lines 50–111)

A parsed HTML document is a forest of nodes; an element carries its tag,
the literal value of its `class` attribute (BeautifulSoup's `class_` filter
with a multi-class string such as `"esgTile p-l-10 p-r-10"` matches the
attribute's exact string value), and its children.  `soup.find`,
`tag.find`, `tag.find_all` and `tag.get_text` are embedded below;
searches cover descendants in document order, ancestors before their
descendants, exactly as in BeautifulSoup. -/

inductive Node where
  | elem (tag : String) (classAttr : Option String) (children : List Node)
  | text (s : String)

mutual

/-- First match of `find(tag, class_=cls)` in `n` or its descendants,
`n` itself included (used on forests, where the roots count as
candidates). -/
def findClassNode (tag cls : String) (n : Node) : Option Node :=
  match n with
  | .text _ => none
  | .elem t c ch =>
    if t = tag ∧ c = some cls then some (.elem t c ch)
    else findClassList tag cls ch

/-- First match of `find(tag, class_=cls)` across a forest, document
order. -/
def findClassList (tag cls : String) (ns : List Node) : Option Node :=
  match ns with
  | [] => none
  | n :: rest =>
    match findClassNode tag cls n with
    | some m => some m
    | none => findClassList tag cls rest

end

/-- `element.find(tag, class_=cls)`: searches the element's descendants
only (the element itself is not a candidate). -/
def findClassIn (tag cls : String) : Node → Option Node
  | .text _ => none
  | .elem _ _ ch => findClassList tag cls ch

mutual

/-- All matches of `find_all(tag)` in `n` or its descendants,
document order. -/
def allTagNode (tag : String) (n : Node) : List Node :=
  match n with
  | .text _ => []
  | .elem t c ch =>
    (if t = tag then [Node.elem t c ch] else []) ++ allTagFor tag ch

/-- All matches of `find_all(tag)` across a forest. -/
def allTagFor (tag : String) (ns : List Node) : List Node :=
  match ns with
  | [] => []
  | n :: rest => allTagNode tag n ++ allTagFor tag rest

end

/-- `element.find_all(tag)`: all matching descendants. -/
def allTagOf (tag : String) : Node → List Node
  | .text _ => []
  | .elem _ _ ch => allTagFor tag ch

mutual

/-- The text-node strings under `n`, in document order. -/
def textsNode (n : Node) : List String :=
  match n with
  | .text s => [s]
  | .elem _ _ ch => textsFor ch

/-- The text-node strings under a forest. -/
def textsFor (ns : List Node) : List String :=
  match ns with
  | [] => []
  | n :: rest => textsNode n ++ textsFor rest

end

/-- Join string pieces with a separator. -/
def joinSep (sep : List Char) : List (List Char) → List Char
  | [] => []
  | [x] => x
  | x :: xs => x ++ sep ++ joinSep sep xs

/-- `get_text(separator=sep, strip=True)`: each text fragment stripped,
empty fragments dropped, the rest joined with the separator. -/
def getTextStrip (sep : String) (n : Node) : String :=
  String.mk (joinSep sep.toList
    (((textsNode n).map (fun s => trimWs s.toList)).filter (fun cs => !cs.isEmpty)))

/-- The `class` value of the Macroaxis container element and of the profit
cell's inner element (main_check_macro_verify.py lines 60 and 98). -/
def containerClass : String := "esgTile p-l-10 p-r-10"

/-- `PROFIT_THRESHOLD_MACROAXIS = 1` (main_check_macro_verify.py line 10). -/
def PROFIT_THRESHOLD_MACROAXIS : ℚ := 1

/-- `cells[i].find("span", class_="p-5").get_text(strip=True)`; `none`
stands for the `AttributeError` path (no such span). -/
def spanText (cell : Node) : Option String :=
  (findClassIn "span" "p-5" cell).map (getTextStrip "")

/-- `float(profit_text.split()[0])`: first whitespace-separated token of
the profit text converted by `float`; `none` stands for the caught
`IndexError`/`ValueError`. -/
def profitValueOfText (profit_text : String) : Option ℚ :=
  match pySplitWs profit_text with
  | [] => none
  | tok :: _ => pyFloatOfString tok

/-- The loop body over one table row (main_check_macro_verify.py
lines 76–109): `none` when the row is skipped, otherwise the emitted
`(sequence, profit_value)` pair. -/
def processRow (threshold : ℚ) (row : Node) : Option (String × ℚ) :=
  let cells := allTagOf "td" row
  if cells.length < 7 then none
  else
    match spanText (cells.getD 0 (.text "")), spanText (cells.getD 1 (.text "")),
          spanText (cells.getD 3 (.text "")), spanText (cells.getD 5 (.text "")) with
    | some start_currency, some buy1, some buy2, some buy3 =>
      if String.mk (upperAscii start_currency.toList) ≠ "USDT" then none
      else
        let sequence := start_currency ++ " -> " ++ buy1 ++ " -> " ++ buy2 ++ " -> " ++ buy3
        match findClassIn "div" containerClass (cells.getD 6 (.text "")) with
        | none => none
        | some profit_div =>
          match profitValueOfText (getTextStrip " " profit_div) with
          | none => none
          | some profit_value =>
            if threshold < profit_value then some (sequence, profit_value) else none
    | _, _, _, _ => none

/-- `extract_opportunities(html, threshold)` over the parsed document:
returns the extracted `(sequence, profit)` pairs together with the
diagnostics printed on the degenerate paths. -/
def extract_opportunities (page : List Node) (threshold : ℚ) :
    List (String × ℚ) × List String :=
  match findClassList "div" containerClass page with
  | none => ([], ["No container found."])
  | some container =>
    match findClassIn "table" "table" container with
    | none => ([], ["No table found."])
    | some table =>
      let rows := allTagOf "tr" table
      if rows.length < 2 then ([], ["Not enough rows found."])
      else ((rows.drop 1).filterMap (processRow threshold), [])

/-- Leading numeric token of a text, as the spec words it (§4.1: "parsed as
the leading numeric token of its text").  This definition follows the
spec's words, not the source, and exists only to be compared with the
source's `float(profit_text.split()[0])` pipeline: it reads the longest
numeric prefix of the text and keeps its exact decimal value. -/
def specLeadingNumericToken (s : String) : Option ℚ :=
  let cs := trimWs s.toList
  let num := cs.takeWhile (fun c => c.isDigit ∨ c = '.')
  if num.isEmpty then none
  else pyDecimalValue (String.mk num)

/-! ### Concrete pages used by the theorems -/

/-- A span of class `p-5` holding one currency symbol. -/
def spanP5 (s : String) : Node := .elem "span" (some "p-5") [.text s]

/-- A table cell holding one `p-5` span. -/
def cellWithSpan (s : String) : Node := .elem "td" none [spanP5 s]

/-- The profit cell: a `td` holding the designated inner `div` whose text
is the profit figure. -/
def profitCell (t : String) : Node :=
  .elem "td" none [.elem "div" (some containerClass) [.text t]]

/-- A data row for the cycle USDT → GALA → BTC → USDT whose profit text is
`t`; cells 0, 1, 3, 5 carry the symbols, cell 6 the profit. -/
def dataRow (t : String) : Node :=
  .elem "tr" none
    [cellWithSpan "USDT", cellWithSpan "GALA", .elem "td" none [],
     cellWithSpan "BTC", .elem "td" none [], cellWithSpan "USDT", profitCell t]

/-- A full page: the designated container, the designated table, a header
row and one data row with profit text `t`. -/
def pageWith (t : String) : List Node :=
  [.elem "div" (some containerClass)
    [.elem "table" (some "table") [.elem "tr" none [], dataRow t]]]

/-- A page that has the container but no table inside it. -/
def pageNoTable : List Node :=
  [.elem "div" (some containerClass) [.elem "p" none [.text "empty"]]]

/-! # Helper lemmas -/

/-- Evaluation rule for `Int.floor` at a concrete rational. -/
theorem floor_eval (q : ℚ) (f : ℤ) (h1 : (f : ℚ) ≤ q) (h2 : q < f + 1) :
    ⌊q⌋ = f := by
  rw [Int.floor_eq_iff]; exact ⟨h1, h2⟩

theorem log2F_one : log2F 1 1 = 0 := by decide

/-- Unfolding `expOfPos` in the `1 ≤ q` range. -/
theorem expOfPos_ge1 (q : ℚ) (n : ℕ) (h1 : 1 ≤ q) (hf : ⌊q⌋.toNat = n) :
    expOfPos q = log2F n n := by
  simp only [expOfPos, if_pos h1, hf]

theorem roundTiesEven_lt (q : ℚ) (f : ℤ) (h1 : ⌊q⌋ = f) (h2 : q - f < 1/2) :
    roundTiesEven q = f := by
  simp only [roundTiesEven, h1, if_pos h2]

theorem roundTiesEven_gt (q : ℚ) (f : ℤ) (h1 : ⌊q⌋ = f) (h2 : 1/2 < q - f) :
    roundTiesEven q = f + 1 := by
  simp only [roundTiesEven, h1]
  rw [if_neg (by linarith), if_pos h2]

/-- Evaluation rule for `roundFloat64` at a positive normal-range value. -/
theorem roundFloat64_pos_eval (q : ℚ) (e : ℤ) (m : ℤ)
    (hq : 0 < q) (he : expOfPos q = e) (hge : -1022 ≤ e)
    (hm : roundTiesEven (q * pow2z (52 - e)) = m) :
    roundFloat64 q = m * pow2z (e - 52) := by
  rw [roundFloat64, if_neg hq.ne', if_neg (not_lt.2 hq.le), roundFloat64Pos]
  simp only [he, if_neg (not_lt.2 hge), hm]

/-- `float("1.01")` is the binary64 neighbour of 1.01 just above it. -/
theorem roundFloat64_one_01 :
    roundFloat64 (101/100) = 4548635623644201/4503599627370496 := by
  have hf : (⌊(101:ℚ)/100⌋ : ℤ) = 1 := floor_eval _ _ (by norm_num) (by norm_num)
  have he : expOfPos (101/100) = 0 := by
    rw [expOfPos_ge1 (101/100) 1 (by norm_num) (by rw [hf]; rfl), log2F_one]; simp
  have hp : pow2z 52 = 4503599627370496 := by simp [pow2z]; norm_num
  have hm : roundTiesEven ((101:ℚ)/100 * pow2z (52 - 0)) = 4548635623644201 := by
    have h := roundTiesEven_gt ((101:ℚ)/100 * pow2z (52 - 0)) 4548635623644200
      (floor_eval _ _ (by rw [show ((52:ℤ) - 0) = 52 by norm_num, hp]; norm_num)
        (by rw [show ((52:ℤ) - 0) = 52 by norm_num, hp]; norm_num))
      (by rw [show ((52:ℤ) - 0) = 52 by norm_num, hp]; norm_num)
    rw [h]; norm_num
  have h := roundFloat64_pos_eval (101/100) 0 4548635623644201 (by norm_num)
    he (by norm_num) hm
  rw [h]
  simp [pow2z]
  norm_num

/-- `float("1.00")` is exactly 1. -/
theorem roundFloat64_one :
    roundFloat64 1 = 1 := by
  have hf : (⌊(1:ℚ)⌋ : ℤ) = 1 := floor_eval _ _ (by norm_num) (by norm_num)
  have he : expOfPos 1 = 0 := by
    rw [expOfPos_ge1 _ 1 (by norm_num) (by rw [hf]; rfl), log2F_one]; simp
  have hp : pow2z 52 = 4503599627370496 := by simp [pow2z]; norm_num
  have hm : roundTiesEven ((1:ℚ) * pow2z (52 - 0)) = 4503599627370496 := by
    apply roundTiesEven_lt
    · apply floor_eval
      · rw [show ((52:ℤ) - 0) = 52 by norm_num, hp]; norm_num
      · rw [show ((52:ℤ) - 0) = 52 by norm_num, hp]; norm_num
    · rw [show ((52:ℤ) - 0) = 52 by norm_num, hp]; norm_num
  have h := roundFloat64_pos_eval _ 0 4503599627370496 (by norm_num)
    he (by norm_num) hm
  rw [h]
  simp [pow2z]
  norm_num

/-- Success-path evaluation of the verifier: when the cycle parses to
`[start, mid, en, start]` and all three lookups succeed with positive
prices, the outcome is `ok` with the three chained amounts and the ratio,
and exactly the three pair symbols were looked up. -/
theorem verify_ok_eval (client : Provider) (sequence start mid en : String)
    (s : ℚ) (t1 t2 t3 : Ticker)
    (hparts : parseParts sequence = [start, mid, en, start])
    (h1 : client (mid ++ start) = .ok t1) (ha : 0 < t1.askPrice)
    (h2 : client (mid ++ en) = .ok t2) (hb : 0 < t2.bidPrice)
    (h3 : client (en ++ start) = .ok t3) (hc : 0 < t3.bidPrice) :
    verify_triangular_opportunity client sequence s =
      (.ok (s / t1.askPrice) (s / t1.askPrice * t2.bidPrice)
        (s / t1.askPrice * t2.bidPrice * t3.bidPrice)
        (s / t1.askPrice * t2.bidPrice * t3.bidPrice / s),
       [mid ++ start, mid ++ en, en ++ start]) := by
  simp only [verify_triangular_opportunity, hparts]
  simp [List.getD, ha.not_le, hb.not_le, hc.not_le, h1, h2, h3]

/-- `float("1.0000000000000000001")` collapses to exactly 1: one binary64
unit in the last place at 1 is `2 ^ (-52) ≈ 2.2e-16`, far above `1e-19`. -/
theorem roundFloat64_collapse :
    roundFloat64 (1 + 1/10^19) = 1 := by
  have hf : (⌊(1:ℚ) + 1/10^19⌋ : ℤ) = 1 := floor_eval _ _ (by norm_num) (by norm_num)
  have he : expOfPos (1 + 1/10^19) = 0 := by
    rw [expOfPos_ge1 _ 1 (by norm_num) (by rw [hf]; rfl), log2F_one]; simp
  have hp : pow2z 52 = 4503599627370496 := by simp [pow2z]; norm_num
  have hm : roundTiesEven (((1:ℚ) + 1/10^19) * pow2z (52 - 0)) = 4503599627370496 := by
    apply roundTiesEven_lt
    · apply floor_eval
      · rw [show ((52:ℤ) - 0) = 52 by norm_num, hp]; norm_num
      · rw [show ((52:ℤ) - 0) = 52 by norm_num, hp]; norm_num
    · rw [show ((52:ℤ) - 0) = 52 by norm_num, hp]; norm_num
  have h := roundFloat64_pos_eval _ 0 4503599627370496 (by norm_num)
    he (by norm_num) hm
  rw [h]
  simp [pow2z]
  norm_num

/-! # Claim theorems -/

/-- C1: for every well-formed 4-symbol cycle `[start, mid, en, start]` and
positive starting notional, the verifier computes leg 1 as the notional
divided by the ask price of pair `mid ++ start`, leg 2 as that amount times
the bid price of `mid ++ en`, leg 3 as that amount times the bid price of
`en ++ start`, and the ratio as the final notional over the starting one;
on the worked example (cycle USDT → GALA → BTC → USDT, notional 100,
`GALAUSDT.ask = 0.05`, `GALABTC.bid = 0.0000008`, `BTCUSDT.bid = 60000`)
the final notional is exactly 96, the ratio exactly 0.96, and the caller
classifies the run as the non-error "no opportunity" outcome. -/
theorem C1_verify_legs_and_example (client : Provider)
    (sequence start mid en : String) (s : ℚ) (t1 t2 t3 : Ticker)
    (hparts : parseParts sequence = [start, mid, en, start])
    (h1 : client (mid ++ start) = .ok t1) (ha : 0 < t1.askPrice)
    (h2 : client (mid ++ en) = .ok t2) (hb : 0 < t2.bidPrice)
    (h3 : client (en ++ start) = .ok t3) (hc : 0 < t3.bidPrice)
    (hs : 0 < s) :
    verify_triangular_opportunity client sequence s =
      (.ok (s / t1.askPrice) (s / t1.askPrice * t2.bidPrice)
        (s / t1.askPrice * t2.bidPrice * t3.bidPrice)
        (s / t1.askPrice * t2.bidPrice * t3.bidPrice / s),
       [mid ++ start, mid ++ en, en ++ start]) ∧
    toReturn (verify_triangular_opportunity galaClient
        "USDT -> GALA -> BTC -> USDT" 100).1 = (some 96, some (96/100)) ∧
    verify_from_binance galaClient "USDT -> GALA -> BTC -> USDT" =
      .noOpportunity := by
  have hg := verify_ok_eval galaClient "USDT -> GALA -> BTC -> USDT"
    "USDT" "GALA" "BTC" 100 ⟨1/25, 1/20⟩ ⟨8/10000000, 1/1000000⟩ ⟨60000, 60001⟩
    rfl rfl (by norm_num) rfl (by norm_num) rfl (by norm_num)
  have hret : toReturn (verify_triangular_opportunity galaClient
      "USDT -> GALA -> BTC -> USDT" 100).1 = (some 96, some (96/100)) := by
    rw [hg]
    simp [toReturn]
    norm_num
  refine ⟨verify_ok_eval client sequence start mid en s t1 t2 t3
    hparts h1 ha h2 hb h3 hc, hret, ?_⟩
  simp [verify_from_binance, hret]
  norm_num

/-- C1 witness: the worked example evaluated end to end. -/
theorem C1_witness :
    (0:ℚ) < 1/20 ∧
    verify_triangular_opportunity galaClient "USDT -> GALA -> BTC -> USDT" 100 =
      (.ok 2000 (16/10000) 96 (96/100), ["GALAUSDT", "GALABTC", "BTCUSDT"]) ∧
    verify_from_binance galaClient "USDT -> GALA -> BTC -> USDT" =
      .noOpportunity := by
  have h := C1_verify_legs_and_example galaClient "USDT -> GALA -> BTC -> USDT"
    "USDT" "GALA" "BTC" 100 ⟨1/25, 1/20⟩ ⟨8/10000000, 1/1000000⟩ ⟨60000, 60001⟩
    rfl rfl (by norm_num) rfl (by norm_num) rfl (by norm_num) (by norm_num)
  refine ⟨by norm_num, ?_, h.2.2⟩
  rw [h.1]
  simp only [Prod.mk.injEq, VOutcome.ok.injEq, List.cons.injEq]
  norm_num
  exact ⟨rfl, rfl, rfl⟩

/-- C7: a cycle without exactly 4 entries whose first equals its last is
rejected as the malformed-cycle outcome, with an empty lookup trace (no
quote lookup is performed) — the embedded function is total, there is no
exception path. -/
theorem C7_malformed_cycle (client : Provider) (sequence : String) (s : ℚ)
    (h : ¬ ((parseParts sequence).length = 4 ∧
            (parseParts sequence).getD 0 "" = (parseParts sequence).getD 3 "")) :
    verify_triangular_opportunity client sequence s = (.malformed, []) := by
  rw [verify_triangular_opportunity]
  rw [if_pos]
  push_neg at h
  by_cases hl : (parseParts sequence).length = 4
  · exact Or.inr (h hl)
  · exact Or.inl hl

/-- C7 witness: a 3-entry cycle is rejected without any lookup. -/
theorem C7_witness :
    ¬ ((parseParts "USDT -> GALA -> BTC").length = 4 ∧
       (parseParts "USDT -> GALA -> BTC").getD 0 "" =
         (parseParts "USDT -> GALA -> BTC").getD 3 "") ∧
    verify_triangular_opportunity galaClient "USDT -> GALA -> BTC" 100 =
      (.malformed, []) := by
  refine ⟨by decide, C7_malformed_cycle galaClient "USDT -> GALA -> BTC" 100 (by decide)⟩

/-- C6: whenever a looked-up price is not positive — leg 1's ask, or a
later leg's bid with every earlier price positive — the verifier stops with
the invalid-quote outcome for that leg, and the lookup trace contains
exactly the pairs looked up so far: no later leg is looked up or
computed. -/
theorem C6_invalid_quote_stops (client : Provider)
    (sequence start mid en : String) (s : ℚ)
    (hparts : parseParts sequence = [start, mid, en, start]) :
    (∀ t1, client (mid ++ start) = .ok t1 → t1.askPrice ≤ 0 →
      verify_triangular_opportunity client sequence s =
        (.invalidQuote 1 (mid ++ start), [mid ++ start])) ∧
    (∀ t1 t2, client (mid ++ start) = .ok t1 → 0 < t1.askPrice →
      client (mid ++ en) = .ok t2 → t2.bidPrice ≤ 0 →
      verify_triangular_opportunity client sequence s =
        (.invalidQuote 2 (mid ++ en), [mid ++ start, mid ++ en])) ∧
    (∀ t1 t2 t3, client (mid ++ start) = .ok t1 → 0 < t1.askPrice →
      client (mid ++ en) = .ok t2 → 0 < t2.bidPrice →
      client (en ++ start) = .ok t3 → t3.bidPrice ≤ 0 →
      verify_triangular_opportunity client sequence s =
        (.invalidQuote 3 (en ++ start),
         [mid ++ start, mid ++ en, en ++ start])) := by
  refine ⟨fun t1 h1 hle => ?_, fun t1 t2 h1 ha h2 hle => ?_,
    fun t1 t2 t3 h1 ha h2 hb h3 hle => ?_⟩
  · simp only [verify_triangular_opportunity, hparts]
    simp [List.getD, h1, hle]
  · simp only [verify_triangular_opportunity, hparts]
    simp [List.getD, h1, h2, ha.not_le, hle]
  · simp only [verify_triangular_opportunity, hparts]
    simp [List.getD, h1, h2, h3, ha.not_le, hb.not_le, hle]

/-- C6 witness: a zero ask price on leg 1 yields the leg-1 invalid-quote
outcome after a single lookup. -/
theorem C6_witness :
    parseParts "USDT -> GALA -> BTC -> USDT" = ["USDT", "GALA", "BTC", "USDT"] ∧
    verify_triangular_opportunity
      (fun symbol => if symbol = "GALAUSDT" then .ok ⟨1/25, 0⟩
                     else .error "symbol not found")
      "USDT -> GALA -> BTC -> USDT" 100 =
      (.invalidQuote 1 "GALAUSDT", ["GALAUSDT"]) := by
  refine ⟨rfl, ?_⟩
  exact (C6_invalid_quote_stops
    (fun symbol => if symbol = "GALAUSDT" then .ok ⟨1/25, 0⟩
                   else .error "symbol not found")
    "USDT -> GALA -> BTC -> USDT" "USDT" "GALA" "BTC" 100 rfl).1
    ⟨1/25, 0⟩ rfl le_rfl

/-- C10: the Python function's return value is `(None, None)` exactly on
the non-`ok` outcomes — malformed cycle, an invalid (non-positive) quote on
any leg, and a caught exception all map to the same `(None, None)` pair, so
the caller cannot tell these failure kinds apart from the return value. -/
theorem C10_failures_return_none_none :
    (∀ leg pair msg, toReturn .malformed = (none, none) ∧
      toReturn (.invalidQuote leg pair) = (none, none) ∧
      toReturn (.exnCaught msg) = (none, none)) ∧
    (∀ (client : Provider) (sequence : String) (s : ℚ),
      toReturn (verify_triangular_opportunity client sequence s).1 = (none, none) ↔
      ∀ a b f r, (verify_triangular_opportunity client sequence s).1 ≠
        VOutcome.ok a b f r) := by
  refine ⟨fun leg pair msg => ⟨rfl, rfl, rfl⟩, fun client sequence s => ?_⟩
  rcases h : (verify_triangular_opportunity client sequence s).1 with
    _ | ⟨l, p⟩ | m | ⟨a, b, f, r⟩ <;> simp [toReturn]

/-- C4: the claim says no failure of any candidate's verification ever
escapes the polling loop, and that is indeed the spec's stated containment
policy — but the code of main_check_macro_verify.py violates it: its
`verify_from_binance` passes the keyword `PROFIT_THRESHOLD_VEIRFY`, which
`verify_triangular_opportunity` does not accept, so Python raises
`TypeError` at the call site, before the callee's `try` can run; neither
`scrape_and_find` nor the `while True` loop around `asyncio.gather`
handles it, so the first extracted candidate of any cycle terminates the
process.  The theorem evaluates the embedded code on a failing input:
the binding check finds the unexpected keyword, every `scrape_and_find`
with at least one candidate escapes with the `TypeError`, and one poll
cycle over pages of which any is non-empty escapes as well. -/
theorem C4_typeerror_escapes_loop :
    unexpectedKeyword vtoParams mcKwargs = some "PROFIT_THRESHOLD_VEIRFY" ∧
    (∀ client : Provider,
      scrape_and_find_mc client [("USDT -> GALA -> BTC -> USDT", 3/2)] =
        .error tyErrMsg) ∧
    (∀ client : Provider,
      run_cycle_mc client [[], [("USDT -> GALA -> BTC -> USDT", 3/2)], []] =
        .error tyErrMsg) := by
  refine ⟨rfl, fun client => rfl, fun client => rfl⟩

/-- When no attempt in the list succeeds, the retry loop returns `None` and
its event trace is one attempt followed by one backoff sleep, per attempt
number, in order. -/
theorem fetchLoop_all_fail (env : ℕ → AttemptOutcome) :
    ∀ l : List ℕ, (∀ a ∈ l, ∀ b, env a ≠ .success b) →
    fetchLoop env l =
      (none, l.flatMap fun a => [FetchEvent.attempt a, .sleepHalfSec]) := by
  intro l
  induction l with
  | nil => intro _; rfl
  | cons a rest ih =>
    intro h
    have hrest := ih (fun x hx => h x (List.mem_cons_of_mem a hx))
    cases henv : env a with
    | success body => exact absurd henv (h a (List.mem_cons_self a rest) body)
    | badStatus code => simp [fetchLoop, henv, hrest]
    | failure msg => simp [fetchLoop, henv, hrest]

/-- The trace of an exhausted retry loop holds exactly one attempt event
per attempt number. -/
theorem countP_attempt_bind :
    ∀ l : List ℕ,
      ((l.flatMap fun a => [FetchEvent.attempt a, .sleepHalfSec]).countP
        (fun e => match e with | .attempt _ => true | _ => false)) = l.length := by
  intro l
  induction l with
  | nil => rfl
  | cons a rest ih =>
    simp only [List.flatMap_cons, List.countP_append, ih, List.length_cons]
    have h2 : List.countP
        (fun e => match e with | FetchEvent.attempt _ => true | _ => false)
        [FetchEvent.attempt a, FetchEvent.sleepHalfSec] = 1 := rfl
    omega

/-- Outcomes in one `fetchAll` cycle are computed endpoint-wise: two
environments that agree away from `u` give identical rows away from `u`. -/
theorem fetchAll_sibling_eq (envA envB : String → ℕ → AttemptOutcome)
    (u : String) (hagree : ∀ v, v ≠ u → envA v = envB v) :
    ∀ urls : List String,
      ∀ p ∈ (fetchAll envA urls).zip (fetchAll envB urls),
        p.1.1 ≠ u → p.1 = p.2 := by
  intro urls
  induction urls with
  | nil => intro p hp; simp [fetchAll] at hp
  | cons v rest ih =>
    intro p hp hne
    simp only [fetchAll, List.map_cons, List.zip_cons_cons, List.mem_cons] at hp
    rcases hp with hp | hp
    · subst hp
      simp only at hne ⊢
      rw [hagree v hne]
    · exact ih p hp hne

/-- C5: an endpoint whose attempts all fail goes through exactly
`maxRetries` attempts, each followed by the fixed 0.5-second backoff sleep,
then yields the `None` fetch outcome; within `fetchAll`, that outcome
belongs to the failing endpoint only, and every sibling endpoint's row is
exactly what it would have been under any environment agreeing on the
siblings. -/
theorem C5_retry_exhaustion (env : ℕ → AttemptOutcome) (maxRetries : ℕ)
    (hfail : ∀ a b, env a ≠ .success b) :
    fetch env maxRetries =
      (none, (List.range' 1 maxRetries).flatMap
        fun a => [FetchEvent.attempt a, .sleepHalfSec]) ∧
    ((fetch env maxRetries).2.countP
      (fun e => match e with | .attempt _ => true | _ => false)) = maxRetries ∧
    (∀ (envAll envAll' : String → ℕ → AttemptOutcome) (urls : List String)
       (u : String),
      (∀ a b, envAll u a ≠ .success b) →
      (∀ v, v ≠ u → envAll v = envAll' v) →
      (u ∈ urls → (u, none) ∈ fetchAll envAll urls) ∧
      (∀ p ∈ (fetchAll envAll urls).zip (fetchAll envAll' urls),
        p.1.1 ≠ u → p.1 = p.2)) := by
  have h1 := fetchLoop_all_fail env (List.range' 1 maxRetries)
    (fun a _ b => hfail a b)
  refine ⟨h1, ?_, ?_⟩
  · rw [fetch, h1]
    rw [countP_attempt_bind]
    simp
  · intro envAll envAll' urls u hu hagree
    constructor
    · intro hmem
      have hf := fetchLoop_all_fail (envAll u) (List.range' 1 MAX_RETRIES)
        (fun a _ b => hu a b)
      have : (fetch (envAll u) MAX_RETRIES).1 = none := by
        rw [fetch, hf]
      simp only [fetchAll, List.mem_map]
      exact ⟨u, hmem, by rw [this]⟩
    · exact fetchAll_sibling_eq envAll envAll' u hagree urls

/-- C5 witness: three timeouts give three attempts, each with its backoff,
then `None`; the sibling endpoint keeps its successful page. -/
theorem C5_witness :
    (∀ a b, (fun _ : ℕ => AttemptOutcome.failure "timeout") a ≠ .success b) ∧
    fetch (fun _ => .failure "timeout") 3 =
      (none, [.attempt 1, .sleepHalfSec, .attempt 2, .sleepHalfSec,
              .attempt 3, .sleepHalfSec]) := by
  have h := C5_retry_exhaustion (fun _ => .failure "timeout") 3
    (fun a b hc => nomatch hc)
  refine ⟨fun a b hc => (nomatch hc), ?_⟩
  rw [h.1]
  rfl

/-- Finishing a task never increases the number of in-flight fetches. -/
theorem countFetching_set_done :
    ∀ (s : SchedState) (i : ℕ),
      countFetching (s.set i TaskState.done) ≤ countFetching s := by
  intro s
  induction s with
  | nil => intro i; simp [countFetching]
  | cons t rest ih =>
    intro i
    cases i with
    | zero =>
      cases t <;> simp [List.set, countFetching]
    | succ j =>
      cases t <;> simp [List.set, countFetching] <;> exact ih j

/-- Starting a waiting task adds exactly one in-flight fetch. -/
theorem countFetching_set_fetching :
    ∀ (s : SchedState) (i : ℕ), s.get? i = some .waiting →
      countFetching (s.set i TaskState.fetching) = countFetching s + 1 := by
  intro s
  induction s with
  | nil => intro i h; simp at h
  | cons t rest ih =>
    intro i h
    cases i with
    | zero =>
      simp only [List.get?] at h
      cases t with
      | waiting => simp [List.set, countFetching]
      | fetching => simp at h
      | done => simp at h
    | succ j =>
      simp only [List.get?] at h
      cases t <;> simp [List.set, countFetching, ih j h]

/-- One semaphore-gated transition preserves the in-flight bound. -/
theorem applyMove_bound (n : ℕ) (s s' : SchedState) (m : Move)
    (h : applyMove (some n) s m = some s') (hs : countFetching s ≤ n) :
    countFetching s' ≤ n := by
  cases m with
  | start i =>
    simp only [applyMove] at h
    cases hg : s.get? i with
    | none => rw [hg] at h; exact absurd h (by simp)
    | some t =>
      rw [hg] at h
      cases t with
      | waiting =>
        simp only at h
        by_cases hlt : countFetching s < n
        · rw [if_pos hlt] at h
          cases h
          rw [countFetching_set_fetching s i hg]
          omega
        · rw [if_neg hlt] at h; cases h
      | fetching => exact absurd h (by simp)
      | done => exact absurd h (by simp)
  | finish i =>
    simp only [applyMove] at h
    cases hg : s.get? i with
    | none => rw [hg] at h; exact absurd h (by simp)
    | some t =>
      rw [hg] at h
      cases t with
      | waiting => exact absurd h (by simp)
      | fetching =>
        simp only [Option.some.injEq] at h
        cases h
        exact le_trans (countFetching_set_done s i) hs
      | done => exact absurd h (by simp)

/-- The in-flight bound is preserved along any gated run. -/
theorem applyMoves_bound (n : ℕ) :
    ∀ (moves : List Move) (s s' : SchedState), countFetching s ≤ n →
      applyMoves (some n) s moves = some s' → countFetching s' ≤ n := by
  intro moves
  induction moves with
  | nil => intro s s' hs h; cases h; exact hs
  | cons m rest ih =>
    intro s s' hs h
    simp only [applyMoves] at h
    cases hm : applyMove (some n) s m with
    | none => rw [hm] at h; exact absurd h (by simp)
    | some s2 =>
      rw [hm] at h
      exact ih s2 s' (applyMove_bound n s s2 m hm hs) h

/-- No fetch is in flight initially. -/
theorem countFetching_init (k : ℕ) : countFetching (initSched k) = 0 := by
  induction k with
  | zero => rfl
  | succ j ih => simp [initSched, List.replicate, countFetching] at ih ⊢; exact ih

/-- The ungated scheduler of async_arb_verify.py reaches the state where
all 51 of 51 endpoints fetch at once. -/
theorem sched_unbounded_reach :
    applyMoves none (initSched 51) ((List.range 51).map Move.start) =
      some (List.replicate 51 TaskState.fetching) := by decide

/-- C3 counterexample: the claim fails on async_arb_verify.py, whose `main`
spawns one task per endpoint with no semaphore: with 51 endpoints the
ungated scheduler reaches a state with 51 fetches in flight, exceeding the
fixed configured limit `CONCURRENCY_LIMIT = 50` of the semaphore-gated
variant — no fixed limit bounds the ungated fan-out. -/
theorem C3_counterexample :
    applyMoves none (initSched 51) ((List.range 51).map Move.start) =
      some (List.replicate 51 TaskState.fetching) ∧
    CONCURRENCY_LIMIT < countFetching (List.replicate 51 TaskState.fetching) := by
  exact ⟨sched_unbounded_reach, by decide⟩

/-- C3 as amended: in main_check_macro_verify.py, where every fetch runs
inside `async with sem:` for the semaphore with limit `n`, every state
reachable in a cycle has at most `n` fetches in flight, whatever the number
of endpoints; in async_arb_verify.py no limit is enforced — with 51
endpoints a state with 51 concurrent fetches (more than the sibling
script's configured 50) is reachable. -/
theorem C3_semaphore_bound (n k : ℕ) (moves : List Move) (s : SchedState)
    (h : applyMoves (some n) (initSched k) moves = some s) :
    countFetching s ≤ n ∧
    (applyMoves none (initSched 51) ((List.range 51).map Move.start) =
      some (List.replicate 51 TaskState.fetching) ∧
     CONCURRENCY_LIMIT < countFetching (List.replicate 51 TaskState.fetching)) := by
  refine ⟨?_, sched_unbounded_reach, by decide⟩
  exact applyMoves_bound n moves (initSched k) s
    (by rw [countFetching_init]; exact Nat.zero_le n) h

/-- C3 witness: a three-endpoint cycle under the gated scheduler with limit
50, after one start transition. -/
theorem C3_witness :
    applyMoves (some 50) (initSched 3) [Move.start 0] =
      some [TaskState.fetching, TaskState.waiting, TaskState.waiting] ∧
    countFetching [TaskState.fetching, TaskState.waiting, TaskState.waiting] ≤ 50 := by
  refine ⟨by decide, ?_⟩
  exact (C3_semaphore_bound 50 3 [Move.start 0]
    [TaskState.fetching, TaskState.waiting, TaskState.waiting] (by decide)).1

/-- The exact decimal value of the literal "1.01". -/
theorem pyDecimalValue_101 : pyDecimalValue "1.01" = some (101/100) := by
  simp [pyDecimalValue, parseMantissa, parseExpPart, trimWs, digitsVal, pow10z]
  norm_num

/-- The exact decimal value of the literal "1.00". -/
theorem pyDecimalValue_100 : pyDecimalValue "1.00" = some 1 := by
  simp [pyDecimalValue, parseMantissa, parseExpPart, trimWs, digitsVal, pow10z]

/-- The exact decimal value of the 20-significant-digit literal. -/
theorem pyDecimalValue_20digit :
    pyDecimalValue "1.0000000000000000001" = some (1 + 1/10^19) := by
  simp [pyDecimalValue, parseMantissa, parseExpPart, trimWs, digitsVal, pow10z]

/-- `float("1.01")` as the extractor computes it. -/
theorem pyFloatOfString_101 :
    pyFloatOfString "1.01" = some (4548635623644201/4503599627370496) := by
  rw [pyFloatOfString, pyDecimalValue_101, Option.map_some', roundFloat64_one_01]

/-- `float("1.00")` is exactly 1. -/
theorem pyFloatOfString_100 : pyFloatOfString "1.00" = some 1 := by
  rw [pyFloatOfString, pyDecimalValue_100, Option.map_some', roundFloat64_one]

/-- `float("1.0000000000000000001")` is exactly 1: binary64 cannot hold 20
significant digits. -/
theorem pyFloatOfString_20digit :
    pyFloatOfString "1.0000000000000000001" = some 1 := by
  rw [pyFloatOfString, pyDecimalValue_20digit, Option.map_some', roundFloat64_collapse]

/-- The profit pipeline on the text "1.01 %" (the numeral its own
whitespace token): the first token parses and yields float 1.01. -/
theorem profitValue_101sp :
    profitValueOfText "1.01 %" = some (4548635623644201/4503599627370496) := by
  have h : pySplitWs "1.01 %" = ["1.01", "%"] := rfl
  rw [profitValueOfText, h]
  exact pyFloatOfString_101

/-- The profit pipeline on the text "1.00 %". -/
theorem profitValue_100sp : profitValueOfText "1.00 %" = some 1 := by
  have h : pySplitWs "1.00 %" = ["1.00", "%"] := rfl
  rw [profitValueOfText, h]
  exact pyFloatOfString_100

/-- The profit pipeline on the 20-significant-digit text. -/
theorem profitValue_20digit :
    profitValueOfText "1.0000000000000000001" = some 1 := by
  have h : pySplitWs "1.0000000000000000001" = ["1.0000000000000000001"] := rfl
  rw [profitValueOfText, h]
  exact pyFloatOfString_20digit

/-- The profit pipeline on "1.01%" (percent sign glued to the numeral):
`float("1.01%")` raises `ValueError`, so the row is skipped. -/
theorem profitValue_101pct : profitValueOfText "1.01%" = none := rfl

/-- Row evaluation on the canonical data row: everything up to the profit
parse is structural, so the row reduces to the profit pipeline on the
profit cell's text. -/
theorem processRow_dataRow (t : String) (threshold : ℚ) :
    processRow threshold (dataRow t) =
      match profitValueOfText (getTextStrip " "
        (Node.elem "div" (some containerClass) [Node.text t])) with
      | none => none
      | some v =>
        if threshold < v then some ("USDT -> GALA -> BTC -> USDT", v)
        else none := rfl

/-- Page evaluation: on the canonical page the container, table and header
are found structurally, leaving the single data row. -/
theorem extract_pageWith_eval (t : String) (threshold : ℚ) :
    extract_opportunities (pageWith t) threshold =
      (List.filterMap (processRow threshold) [dataRow t], []) := rfl

/-- The canonical page with profit text "1.01 %" yields one candidate, the
float value of 1.01, at threshold 1. -/
theorem extract_101sp :
    extract_opportunities (pageWith "1.01 %") 1 =
      ([("USDT -> GALA -> BTC -> USDT", 4548635623644201/4503599627370496)], []) := by
  rw [extract_pageWith_eval, List.filterMap_cons, processRow_dataRow]
  rw [show getTextStrip " "
      (Node.elem "div" (some containerClass) [Node.text "1.01 %"]) = "1.01 %" from rfl]
  rw [profitValue_101sp]
  norm_num

/-- The canonical page with profit text "1.00 %" yields no candidate at
threshold 1: the comparison is strict. -/
theorem extract_100sp :
    extract_opportunities (pageWith "1.00 %") 1 = ([], []) := by
  rw [extract_pageWith_eval, List.filterMap_cons, processRow_dataRow]
  rw [show getTextStrip " "
      (Node.elem "div" (some containerClass) [Node.text "1.00 %"]) = "1.00 %" from rfl]
  rw [profitValue_100sp]
  norm_num

/-- The canonical page with profit text "1.01%" (percent glued to the
numeral) yields no candidate: `float` rejects the token and the row is
skipped. -/
theorem extract_101pct :
    extract_opportunities (pageWith "1.01%") 1 = ([], []) := by
  rw [extract_pageWith_eval, List.filterMap_cons, processRow_dataRow]
  rw [show getTextStrip " "
      (Node.elem "div" (some containerClass) [Node.text "1.01%"]) = "1.01%" from rfl]
  rw [profitValue_101pct]
  rfl

/-- C8: a page without the designated container `div`, or whose container
holds no designated table, makes `extract_opportunities` return the empty
candidate list together with the corresponding diagnostic; the embedded
extractor is total, so no exception reaches the caller. -/
theorem C8_missing_structure (page : List Node) (threshold : ℚ) :
    (findClassList "div" containerClass page = none →
      extract_opportunities page threshold = ([], ["No container found."])) ∧
    (∀ container, findClassList "div" containerClass page = some container →
      findClassIn "table" "table" container = none →
      extract_opportunities page threshold = ([], ["No table found."])) := by
  constructor
  · intro h
    rw [extract_opportunities, h]
  · intro container h ht
    rw [extract_opportunities, h]
    simp only
    rw [ht]

/-- C8 witness: the empty page lacks the container; `pageNoTable` has the
container but no table. -/
theorem C8_witness :
    findClassList "div" containerClass ([] : List Node) = none ∧
    extract_opportunities [] 1 = ([], ["No container found."]) ∧
    findClassIn "table" "table"
      (Node.elem "div" (some containerClass) [Node.elem "p" none [Node.text "empty"]])
      = none ∧
    extract_opportunities pageNoTable 1 = ([], ["No table found."]) := by
  refine ⟨rfl, (C8_missing_structure [] 1).1 rfl, rfl, ?_⟩
  exact (C8_missing_structure pageNoTable 1).2
    (Node.elem "div" (some containerClass) [Node.elem "p" none [Node.text "empty"]])
    rfl rfl

/-- C9 counterexample: with threshold 1, the profit text "1.01%" is NOT
included, contrary to the claim.  The source computes
`float(profit_text.split()[0])`; when the percent sign is glued to the
numeral the token is "1.01%", `float` raises `ValueError` and the row is
skipped, even though the leading numeric token in the spec's sense is 1.01
and exceeds the threshold. -/
theorem C9_counterexample :
    extract_opportunities (pageWith "1.01%") PROFIT_THRESHOLD_MACROAXIS = ([], []) ∧
    specLeadingNumericToken "1.01%" = some (101/100) ∧
    PROFIT_THRESHOLD_MACROAXIS < 101/100 := by
  refine ⟨extract_101pct, ?_, by norm_num [PROFIT_THRESHOLD_MACROAXIS]⟩
  show pyDecimalValue "1.01" = some (101/100)
  exact pyDecimalValue_101

/-- C9 as amended: a qualifying row is emitted iff the first
whitespace-separated token of its profit text parses as a float strictly
above the threshold; with threshold 1, profit text "1.00 %" is excluded
(the boundary is strict) and "1.01 %" is included, while a glued "1.01%"
token fails the float parse and is skipped. -/
theorem C9_strict_threshold (threshold v : ℚ) (t : String)
    (hv : profitValueOfText (getTextStrip " "
        (Node.elem "div" (some containerClass) [Node.text t])) = some v) :
    (processRow threshold (dataRow t) =
        some ("USDT -> GALA -> BTC -> USDT", v) ↔ threshold < v) ∧
    (¬ threshold < v → processRow threshold (dataRow t) = none) ∧
    extract_opportunities (pageWith "1.01 %") PROFIT_THRESHOLD_MACROAXIS =
      ([("USDT -> GALA -> BTC -> USDT", 4548635623644201/4503599627370496)], []) ∧
    extract_opportunities (pageWith "1.00 %") PROFIT_THRESHOLD_MACROAXIS =
      ([], []) := by
  have hm := processRow_dataRow t threshold
  rw [hv] at hm
  refine ⟨?_, ?_, extract_101sp, extract_100sp⟩
  · rw [hm]
    by_cases h : threshold < v
    · simp [h]
    · simp [h]
  · intro h
    rw [hm]
    simp [h]

/-- C9 witness: the amended claim at the concrete row with profit text
"1.01 %" and threshold 1. -/
theorem C9_witness :
    profitValueOfText (getTextStrip " "
      (Node.elem "div" (some containerClass) [Node.text "1.01 %"])) =
      some (4548635623644201/4503599627370496) ∧
    (1:ℚ) < 4548635623644201/4503599627370496 ∧
    processRow 1 (dataRow "1.01 %") =
      some ("USDT -> GALA -> BTC -> USDT", 4548635623644201/4503599627370496) := by
  have hv : profitValueOfText (getTextStrip " "
      (Node.elem "div" (some containerClass) [Node.text "1.01 %"])) =
      some (4548635623644201/4503599627370496) := profitValue_101sp
  refine ⟨hv, by norm_num, ?_⟩
  exact (C9_strict_threshold 1 (4548635623644201/4503599627370496) "1.01 %" hv).1.mpr
    (by norm_num)

/-- C2 counterexample: the profit figure is parsed with binary floating
point, not a 20-significant-digit decimal type: the 20-significant-digit
numeral 1.0000000000000000001 has exact decimal value 1 + 10⁻¹⁹, but the
extractor's `float` pipeline yields exactly 1, so the strict comparison
against threshold 1 excludes it while exact-decimal arithmetic would
include it. -/
theorem C2_counterexample :
    pyFloatOfString "1.0000000000000000001" = some 1 ∧
    pyDecimalValue "1.0000000000000000001" = some (1 + 1/10^19) ∧
    (1 : ℚ) + 1/10^19 ≠ 1 ∧
    profitValueOfText "1.0000000000000000001" = some 1 ∧
    ¬ PROFIT_THRESHOLD_MACROAXIS < (1:ℚ) ∧
    PROFIT_THRESHOLD_MACROAXIS < 1 + 1/10^19 := by
  refine ⟨pyFloatOfString_20digit, pyDecimalValue_20digit, by norm_num,
    profitValue_20digit, ?_, ?_⟩
  · norm_num [PROFIT_THRESHOLD_MACROAXIS]
  · norm_num [PROFIT_THRESHOLD_MACROAXIS]

/-- C2 as amended: the verifier computes its monetary quantities in the
decimal context with `prec = 28` (at least 20 significant digits), but the
extractor parses the profit figure with binary floating point (`float`)
and compares it to the threshold in that representation, which drops
digits beyond binary64 precision: 1.0000000000000000001 collapses to 1 and
is excluded at threshold 1, though its exact decimal value exceeds the
threshold. -/
theorem C2_decimal_except_float_extractor :
    getcontext_prec = 28 ∧ 20 ≤ getcontext_prec ∧
    pyFloatOfString "1.0000000000000000001" =
      (pyDecimalValue "1.0000000000000000001").map roundFloat64 ∧
    profitValueOfText "1.0000000000000000001" = some 1 ∧
    pyDecimalValue "1.0000000000000000001" = some (1 + 1/10^19) ∧
    ¬ PROFIT_THRESHOLD_MACROAXIS < (1:ℚ) ∧
    PROFIT_THRESHOLD_MACROAXIS < 1 + 1/10^19 := by
  refine ⟨rfl, by norm_num [getcontext_prec], rfl, profitValue_20digit,
    pyDecimalValue_20digit, ?_, ?_⟩
  · norm_num [PROFIT_THRESHOLD_MACROAXIS]
  · norm_num [PROFIT_THRESHOLD_MACROAXIS]
